import Mathlib

/-!
Verification development for the fcrm_chat_sdk_expo repository.

The TypeScript sources are shallowly embedded: runtime JSON values become the
inductive `Jv`, records become structures, asynchronous fallible calls become
`Except` results passed in explicitly, and the React context state updates
become pure state-transition functions on a `System` record holding the
context state, the storage service state and the socket service state.
-/

namespace FcrmChat

/-- Runtime JSON-like value, as produced by parsing a server response body.
Models the JavaScript values the SDK manipulates (null, booleans, numbers,
strings, arrays, objects). Numbers are modelled as integers. -/
inductive Jv where
  | null
  | bool (b : Bool)
  | num (n : Int)
  | str (s : String)
  | arr (elems : List Jv)
  | obj (fields : List (String × Jv))

/-- JavaScript truthiness of a value: null, false, 0 and the empty string are
falsy; arrays and objects are always truthy. -/
def truthy : Jv → Bool
  | .null => false
  | .bool b => b
  | .num n => n != 0
  | .str s => s != ""
  | .arr _ => true
  | .obj _ => true

/-- Property access `v[key]`: defined lookup on objects, undefined (`none`)
on every other value. -/
def getField : Jv → String → Option Jv
  | .obj fields, key => (fields.find? (fun p => p.fst == key)).map Prod.snd
  | _, _ => none

/-- The JavaScript `typeof v === "object"` test: true for objects, arrays and
null. -/
def isObjectType : Jv → Bool
  | .obj _ => true
  | .arr _ => true
  | .null => true
  | _ => false

mutual
/-- The JavaScript `String(v)` conversion. Arrays stringify by joining their
elements with commas, objects stringify to the fixed object tag. -/
def jsToString : Jv → String
  | .null => "null"
  | .bool b => if b then "true" else "false"
  | .num n => toString n
  | .str s => s
  | .arr elems => jsArrString elems
  | .obj _ => "[object Object]"

/-- String conversion of an array body: elements joined by commas. -/
def jsArrString : List Jv → String
  | [] => ""
  | [v] => jsJoinElem v
  | v :: rest => jsJoinElem v ++ "," ++ jsArrString rest

/-- Element rendering used by array joins: null renders as the empty string,
everything else via the ordinary string conversion. -/
def jsJoinElem : Jv → String
  | .null => ""
  | v => jsToString v
end

/-- Field access returning the value only when it is present and truthy,
mirroring the idiom `if (v.key) ...` applied to a field. -/
def getTruthyField (v : Jv) (key : String) : Option Jv :=
  match getField v key with
  | some w => if truthy w then some w else none
  | none => none

/-- Extraction for fields the code casts with `as number`: a JSON number
yields its value, anything else is treated as absent. The nullish fallback
`?? d` then supplies the default. -/
def jvFieldNumD (v : Jv) (key : String) (d : Int) : Int :=
  match getField v key with
  | some (.num n) => n
  | _ => d

/-- Extraction for fields the code casts with `as string` and defaults. -/
def jvFieldStrD (v : Jv) (key : String) (d : String) : String :=
  match getField v key with
  | some (.str s) => s
  | _ => d

/-- Extraction for optional string fields (cast `as string | undefined`). -/
def jvFieldStr? (v : Jv) (key : String) : Option String :=
  match getField v key with
  | some (.str s) => some s
  | _ => none

/-- Extraction for fields the code casts with `as boolean` and defaults. -/
def jvFieldBoolD (v : Jv) (key : String) (d : Bool) : Bool :=
  match getField v key with
  | some (.bool b) => b
  | _ => d

/-- Extraction for optional object fields (cast `as Record | undefined`). -/
def jvFieldObj? (v : Jv) (key : String) : Option (List (String × Jv)) :=
  match getField v key with
  | some (.obj fields) => some fields
  | _ => none

/-- Extraction for optional array fields, defaulting to the empty list,
mirroring `(v.key as T[]) ?? []`. -/
def jvFieldArrD (v : Jv) (key : String) : List Jv :=
  match getField v key with
  | some (.arr elems) => elems
  | _ => []

/-! Embedding of src/types/message.ts -/

/-- Sender category of a chat message (src/types/message.ts, MessageType). -/
inductive MessageType where
  | user
  | admin
  | ai
  | system
deriving Repr, DecidableEq

/-- Dispatch on the lowercased type string, embedding the switch statement of
parseMessageType: the four recognized spellings map to themselves, everything
else falls through to the default category. -/
def messageTypeOfLower (s : String) : MessageType :=
  if s = "user" then .user
  else if s = "admin" then .admin
  else if s = "ai" then .ai
  else if s = "system" then .system
  else .user

/-- Character-wise lowercasing, embedding the toLowerCase call on the type
strings (which are ASCII). -/
def jsToLowerCase (s : String) : String :=
  String.mk (s.data.map Char.toLower)

/-- Embeds parseMessageType (src/types/message.ts): the input is lowercased
before matching, and an undefined input takes the default branch. -/
def parseMessageType (value : Option String) : MessageType :=
  match value with
  | some s => messageTypeOfLower (jsToLowerCase s)
  | none => .user

/-- Date value as constructed by the message parser: either built from a
truthy field value, or the current time when the field is absent or falsy.
The constructor argument is kept opaque, never interpreted. -/
inductive JsDate where
  | ofValue (v : Jv)
  | now

/-- Embeds the ChatMessage interface (src/types/message.ts). -/
structure ChatMessage where
  id : Int
  chatId : Int
  content : String
  type : MessageType
  senderName : Option String
  senderType : Option String
  createdAt : JsDate
  updatedAt : Option JsDate
  isRead : Bool
  readAt : Option JsDate
  metadata : Option (List (String × Jv))

/-- Date field construction pattern `json.k ? new Date(json.k) : undefined`. -/
def jvFieldDate? (json : Jv) (key : String) : Option JsDate :=
  match getTruthyField json key with
  | some v => some (.ofValue v)
  | none => none

/-- Embeds parseChatMessage (src/types/message.ts). -/
def parseChatMessage (json : Jv) : ChatMessage :=
  { id := jvFieldNumD json "id" 0
    chatId := jvFieldNumD json "chat_id" 0
    content := jvFieldStrD json "content" ""
    type := parseMessageType (jvFieldStr? json "type")
    senderName := jvFieldStr? json "sender_name"
    senderType := jvFieldStr? json "sender_type"
    createdAt := match getTruthyField json "created_at" with
      | some v => .ofValue v
      | none => .now
    updatedAt := jvFieldDate? json "updated_at"
    isRead := jvFieldBoolD json "is_read" false
    readAt := jvFieldDate? json "read_at"
    metadata := jvFieldObj? json "metadata" }

/-- Embeds the PaginatedMessages interface (src/types/message.ts). -/
structure PaginatedMessages where
  messages : List ChatMessage
  total : Int
  currentPage : Int
  perPage : Int
  lastPage : Int
  hasMore : Bool

/-- Embeds parsePaginatedMessages (src/types/message.ts): numeric fields
default when absent, and the has-more flag is computed from the current and
last page numbers. -/
def parsePaginatedMessages (json : Jv) : PaginatedMessages :=
  let messages := (jvFieldArrD json "messages").map parseChatMessage
  let total := jvFieldNumD json "total" 0
  let currentPage := jvFieldNumD json "current_page" 1
  let perPage := jvFieldNumD json "per_page" 20
  let lastPage := jvFieldNumD json "last_page" 1
  { messages := messages
    total := total
    currentPage := currentPage
    perPage := perPage
    lastPage := lastPage
    hasMore := decide (currentPage < lastPage) }

/-- Embeds createEmptyPaginatedMessages (src/types/index.ts): the empty-page
sentinel returned by the resilient load path. -/
def createEmptyPaginatedMessages (perPage : Int) : PaginatedMessages :=
  { messages := []
    total := 0
    currentPage := 1
    perPage := perPage
    lastPage := 1
    hasMore := false }

/-! Embedding of src/utils/errors.ts -/

/-- Error values thrown by the SDK (src/utils/errors.ts): the base chat
exception, the API exception carrying an HTTP-like status code, and the
upload-cancelled exception. -/
inductive ChatError where
  | chatException (message : String)
  | apiException (message : String) (statusCode : Nat)
  | uploadCancelled (message : String)
deriving Repr, DecidableEq

/-! Embedding of src/types/remote-config.ts -/

/-- Embeds the ChatAppRemoteConfig interface. The required-fields record is a
list of key-label pairs in declaration order. -/
structure ChatAppRemoteConfig where
  appName : String
  appDescription : Option String
  logoUrl : Option String
  isActive : Bool
  settings : List (String × Jv)
  requiredFields : List (String × String)
  socketUrl : String
  socketApiKey : String

/-! Embedding of src/types/responses.ts -/

/-- Embeds the RegistrationResponse interface. -/
structure RegistrationResponse where
  success : Bool
  browserKey : String
  chatId : Option Int
  message : Option String
  lastMessages : Option (List Jv)

/-! Embedding of the API service (src/services/api.service.ts) -/

/-- Renders the status of a failed response for the fallback error message,
mirroring `axiosError.response?.status ?? "unknown"`. -/
def statusText : Option Nat → String
  | some n => toString n
  | none => "unknown"

/-- Values of an object or array, as returned by `Object.values`. -/
def jsValues : Jv → List Jv
  | .obj fields => fields.map Prod.snd
  | .arr elems => elems
  | _ => []

/-- One level of array flattening, as performed by `Array.prototype.flat`. -/
def flatOne : Jv → List Jv
  | .arr elems => elems
  | v => [v]

/-- Embeds `Object.values(errors).flat().join(", ")` from parseError: the
values of the errors record are flattened one level and joined with a comma
and a space. -/
def errorsJoined (errs : Jv) : String :=
  String.intercalate ", " (((jsValues errs).flatMap flatOne).map jsJoinElem)

/-- Embeds parseError (src/services/api.service.ts) restricted to the axios
branch: `data` is the optional response body. A truthy error field wins; else
an errors field that is truthy and of object type is flattened and joined;
else a truthy message field; else the generic fallback naming the status. -/
def parseError (data : Option Jv) (status : Option Nat) : String :=
  let fallback := "Request failed with status " ++ statusText status
  match data with
  | some d =>
    if truthy d then
      match getTruthyField d "error" with
      | some e => jsToString e
      | none =>
        match ((getField d "errors").filter fun v => truthy v && isObjectType v) with
        | some errs => errorsJoined errs
        | none =>
          match getTruthyField d "message" with
          | some m => jsToString m
          | none => fallback
    else fallback
  | none => fallback

/-- State of a CancelToken (src/services/api.service.ts): the cancelled flag,
plus a count of how many times the underlying axios source was cancelled,
recording the observable cancellation effects. -/
structure CancelToken where
  isCancelled : Bool
  sourceCancelCount : Nat
deriving Repr, DecidableEq

/-- A freshly constructed CancelToken. -/
def CancelToken.new : CancelToken :=
  { isCancelled := false, sourceCancelCount := 0 }

/-- Embeds CancelToken.cancel: only when the token is not yet cancelled does
it set the flag and cancel the underlying source. -/
def CancelToken.cancel (t : CancelToken) : CancelToken :=
  if t.isCancelled then t
  else { isCancelled := true, sourceCancelCount := t.sourceCancelCount + 1 }

/-- Outcome of the network transfer attempted by an upload, supplied as an
explicit parameter to the embedded upload function: a successful response
body, an axios cancellation, or a failure with optional response status and
body. -/
inductive NetResult where
  | ok (data : Jv)
  | cancelledByToken
  | failed (status : Option Nat) (data : Option Jv)

/-- Embeds uploadImage (src/services/api.service.ts), keeping the control
flow relevant to cancellation and error mapping. The first component counts
network requests issued; the second is the call result. An already-cancelled
token fails before any request is issued; an axios cancellation maps to the
upload-cancelled error; other failures map to the API exception built from
parseError. -/
def uploadImage (cancelToken : Option CancelToken) (net : NetResult) :
    Nat × Except ChatError Jv :=
  if (cancelToken.map CancelToken.isCancelled).getD false then
    (0, .error (.uploadCancelled "Upload was cancelled"))
  else
    match net with
    | .ok data => (1, .ok data)
    | .cancelledByToken => (1, .error (.uploadCancelled "Upload was cancelled"))
    | .failed status data =>
      (1, .error (.apiException (parseError data status) (status.getD 0)))

/-- Embeds uploadFile (src/services/api.service.ts), which delegates to the
image upload. -/
def uploadFile (cancelToken : Option CancelToken) (net : NetResult) :
    Nat × Except ChatError Jv :=
  uploadImage cancelToken net

/-! Embedding of the storage service (src/services/storage.service.ts) -/

/-- Persisted state of the storage service: the browser key string and the
user-data blob under their per-app-key storage keys. The blob is held in
parsed form; `none` models both an absent record and an unparseable one. -/
structure StorageState where
  browserKey : Option String
  userData : Option (List (String × Jv))

/-- Embeds ChatStorageService.isRegistered: the stored browser key exists and
is non-empty. -/
def storageIsRegistered (s : StorageState) : Bool :=
  match s.browserKey with
  | some k => k.length > 0
  | none => false

/-- Embeds ChatStorageService.clearAll: both records removed. -/
def storageClearAll (_s : StorageState) : StorageState :=
  { browserKey := none, userData := none }

/-! Embedding of the socket service (src/services/socket.service.ts) -/

/-- State of the socket service: whether a socket object exists, whether it
is connected, and the tracked browser key. -/
structure SocketState where
  socketPresent : Bool
  connected : Bool
  currentBrowserKey : Option String
deriving Repr, DecidableEq

/-- Embeds ChatSocketService.connect: a no-op while a connected socket
exists; otherwise a fresh, not-yet-connected socket is created, and the
tracked key is replaced only when a truthy browser key was supplied. -/
def socketConnect (s : SocketState) (_socketUrl _apiKey : String)
    (browserKey : Option String) : SocketState :=
  if s.socketPresent && s.connected then s
  else
    { socketPresent := true
      connected := false
      currentBrowserKey :=
        match browserKey with
        | some k => if k != "" then some k else s.currentBrowserKey
        | none => s.currentBrowserKey }

/-- Embeds ChatSocketService.disconnect. The boolean reports whether the
connection-change callbacks were notified with false, which happens exactly
when a socket object existed. -/
def socketDisconnect (s : SocketState) : SocketState × Bool :=
  if s.socketPresent then
    ({ socketPresent := false, connected := false, currentBrowserKey := none }, true)
  else
    (s, false)

/-- Embeds ChatSocketService.updateBrowserKey: a no-op when the key is
unchanged; otherwise the old room is left and the new one joined (pure emits)
and the tracked key is replaced. -/
def socketUpdateBrowserKey (s : SocketState) (browserKey : String) : SocketState :=
  if s.currentBrowserKey = some browserKey then s
  else { s with currentBrowserKey := some browserKey }

/-! Embedding of the context state machine (src/context/FcrmChatContext.tsx) -/

/-- Embeds the ChatState record held by the provider. -/
structure ChatState where
  isInitialized : Bool
  isConnected : Bool
  isRegistered : Bool
  remoteConfig : Option ChatAppRemoteConfig
  browserKey : Option String
  chatId : Option Int
  error : Option ChatError

/-- The useState initial value of the provider state. -/
def initialChatState : ChatState :=
  { isInitialized := false
    isConnected := false
    isRegistered := false
    remoteConfig := none
    browserKey := none
    chatId := none
    error := none }

/-- The whole session: provider state plus the storage and socket service
states it orchestrates. -/
structure System where
  state : ChatState
  storage : StorageState
  socket : SocketState

/-- Embeds the initialize callback. The remote-config fetch result is passed
in explicitly; the returned option is the error the call re-raises, if any.
A session that is already initialized returns unchanged. On an inactive
config or a fetch failure only the error field of the state changes; on
success the socket is connected and the state advances to initialized with
the restored identity and registration flag. -/
def initChat (sys : System) (socketUrlOverride : Option String)
    (configResult : Except ChatError ChatAppRemoteConfig) : System × Option ChatError :=
  if sys.state.isInitialized then (sys, none)
  else
    match configResult with
    | .error e => ({ sys with state := { sys.state with error := some e } }, some e)
    | .ok remoteConfig =>
      if !remoteConfig.isActive then
        let e : ChatError := .chatException "Chat app is not active"
        ({ sys with state := { sys.state with error := some e } }, some e)
      else
        let browserKey := sys.storage.browserKey
        let registered := storageIsRegistered sys.storage
        let socket1 := socketConnect sys.socket
          (socketUrlOverride.getD remoteConfig.socketUrl) remoteConfig.socketApiKey
          browserKey
        ({ state := { sys.state with
             isInitialized := true
             isRegistered := registered
             remoteConfig := some remoteConfig
             browserKey := browserKey
             error := none }
           storage := sys.storage
           socket := socket1 }, none)

/-- Lookup of a user-data field, as `userData[key]` on the submitted record:
`none` models an absent key. -/
def lookupField (fields : List (String × Jv)) (key : String) : Option Jv :=
  (fields.find? (fun p => p.fst == key)).map Prod.snd

/-- The per-field test of the register validation loop: the value is missing
when the key is absent, the value is null, or its string conversion is blank
after trimming. -/
def fieldMissing (userData : List (String × Jv)) (key : String) : Bool :=
  match lookupField userData key with
  | none => true
  | some .null => true
  | some v => (jsToString v).trim == ""

/-- The register validation loop over the required-fields entries in
declaration order: the first entry whose field is missing, if any. -/
def findMissingField (required : List (String × String))
    (userData : List (String × Jv)) : Option (String × String) :=
  required.find? (fun kl => fieldMissing userData kl.fst)

/-- The exception value thrown by the register validation loop. -/
def missingFieldError (key label : String) : ChatError :=
  .chatException ("Missing required field: " ++ label ++ " (key: " ++ key ++ ")")

/-- Outcome of a register call, tagging the distinct throw sites of the
callback and the success case. -/
inductive RegisterOutcome where
  | notInitialized
  | missingRequiredField (key label : String)
  | apiError (e : ChatError)
  | registered (resp : RegistrationResponse)

/-- The exception value a register outcome corresponds to, recovering the
thrown errors of the source from the tagged outcome. -/
def registerThrown : RegisterOutcome → Option ChatError
  | .notInitialized => some (.chatException "Chat not initialized. Call initialize() first.")
  | .missingRequiredField key label => some (missingFieldError key label)
  | .apiError e => some e
  | .registered _ => none

/-- Embeds the register callback. Requires the initialized state, validates
the submission against the required-fields map of the remote config, then
applies the API result: on success the returned key and the enriched blob
are persisted, the socket identity is updated, and the state is published
with the registered flag set. -/
def register (sys : System) (userData : List (String × Jv)) (now : String)
    (apiResult : Except ChatError RegistrationResponse) : System × RegisterOutcome :=
  if !sys.state.isInitialized then (sys, .notInitialized)
  else
    let required :=
      match sys.state.remoteConfig with
      | some cfg => cfg.requiredFields
      | none => []
    match findMissingField required userData with
    | some kl => (sys, .missingRequiredField kl.fst kl.snd)
    | none =>
      match apiResult with
      | .error e => (sys, .apiError e)
      | .ok resp =>
        let storage1 : StorageState :=
          { browserKey := some resp.browserKey
            userData := some (userData ++
              [("registered", Jv.bool true), ("registrationDate", Jv.str now)]) }
        let socket1 := socketUpdateBrowserKey sys.socket resp.browserKey
        ({ state := { sys.state with
             isRegistered := true
             browserKey := some resp.browserKey
             chatId := resp.chatId }
           storage := storage1
           socket := socket1 }, .registered resp)

/-- Embeds the reset callback: the storage is cleared, the socket
disconnected (notifying the connection subscription with false when a socket
existed), and the state published with the registration cleared while the
initialized flag is untouched. -/
def reset (sys : System) : System :=
  let disc := socketDisconnect sys.socket
  let state1 := if disc.snd then { sys.state with isConnected := false } else sys.state
  { state := { state1 with isRegistered := false, browserKey := none, chatId := none }
    storage := storageClearAll sys.storage
    socket := disc.fst }

/-- Embeds the browser-key-updated event path: the socket service stores the
new key and notifies, and the provider subscription updates the state and
persists the key. -/
def browserKeyUpdate (sys : System) (key : String) : System :=
  { state := { sys.state with browserKey := some key }
    storage := { sys.storage with browserKey := some key }
    socket := { sys.socket with currentBrowserKey := some key } }

/-- Truthiness of a nullable string, as tested by `if (!browserKey)`. -/
def strOptTruthy : Option String → Bool
  | some s => s != ""
  | none => false

/-- Embeds the loadMessages callback: requires the initialized state, falls
back to the stored key when no truthy key is in memory, and returns the
empty sentinel when no key or no stored user data exists or when the message
fetch fails. The fetch result is passed in explicitly. -/
def loadMessages (sys : System) (_page perPage : Int)
    (apiResult : Except ChatError PaginatedMessages) : Except ChatError PaginatedMessages :=
  if !sys.state.isInitialized then
    .error (.chatException "Chat not initialized. Call initialize() first.")
  else
    let browserKey :=
      if strOptTruthy sys.state.browserKey then sys.state.browserKey
      else sys.storage.browserKey
    if !(strOptTruthy browserKey) then .ok (createEmptyPaginatedMessages perPage)
    else
      match sys.storage.userData with
      | none => .ok (createEmptyPaginatedMessages perPage)
      | some _ =>
        match apiResult with
        | .ok r => .ok r
        | .error _ => .ok (createEmptyPaginatedMessages perPage)

/-- Operations of the core considered for the session invariant, with their
external inputs supplied as constructor arguments. -/
inductive Op where
  | initOp (socketUrlOverride : Option String)
      (configResult : Except ChatError ChatAppRemoteConfig)
  | registerOp (userData : List (String × Jv)) (now : String)
      (apiResult : Except ChatError RegistrationResponse)
  | resetOp
  | browserKeyUpdateOp (key : String)

/-- One step of the session: the state effect of the given operation. -/
def stepOp (sys : System) : Op → System
  | .initOp o c => (initChat sys o c).fst
  | .registerOp u n a => (register sys u n a).fst
  | .resetOp => reset sys
  | .browserKeyUpdateOp k => browserKeyUpdate sys k

/-- Runs a sequence of operations from a starting session. -/
def run (sys : System) (ops : List Op) : System :=
  ops.foldl stepOp sys

/-! Embedding of the subscriber dispatch (src/services/socket.service.ts) -/

/-- Semantics of `callbacks.forEach((cb) => cb(x))` when callbacks may
throw: callbacks run in order until one throws. The first component counts
the callbacks that were invoked; the second is the exception escaping the
dispatch, if any. -/
def forEachCallbacks {α ε : Type} (callbacks : List (α → Except ε Unit)) (x : α) :
    Nat × Option ε :=
  match callbacks with
  | [] => (0, none)
  | c :: rest =>
    match c x with
    | .ok _ =>
      let r := forEachCallbacks rest x
      (r.fst + 1, r.snd)
    | .error e => (1, some e)

/-- Embeds notifyConnectionChange: plain forEach over the connection
callbacks. -/
def notifyConnectionChange {ε : Type} (callbacks : List (Bool → Except ε Unit))
    (connected : Bool) : Nat × Option ε :=
  forEachCallbacks callbacks connected

/-- Embeds notifyMessage: plain forEach over the message callbacks. -/
def notifyMessage {ε : Type} (callbacks : List (ChatMessage → Except ε Unit))
    (message : ChatMessage) : Nat × Option ε :=
  forEachCallbacks callbacks message

/-- Embeds notifyTyping: plain forEach over the typing callbacks. -/
def notifyTyping {ε : Type} (callbacks : List (Bool → Except ε Unit))
    (isTyping : Bool) : Nat × Option ε :=
  forEachCallbacks callbacks isTyping

/-- Embeds notifyBrowserKeyUpdate: plain forEach over the browser-key
callbacks. -/
def notifyBrowserKeyUpdate {ε : Type} (callbacks : List (String → Except ε Unit))
    (browserKey : String) : Nat × Option ε :=
  forEachCallbacks callbacks browserKey

/-! Theorems -/

/-- C5: for every constructed paginated message page, whether parsed from a
server response or produced as the empty sentinel, the has-more flag equals
exactly the comparison of the current page with the last page, and the empty
sentinel has current page one, last page one and has-more false. -/
theorem hasMore_eq_currentPage_lt_lastPage :
    (∀ json : Jv,
      (parsePaginatedMessages json).hasMore =
        decide ((parsePaginatedMessages json).currentPage <
          (parsePaginatedMessages json).lastPage))
    ∧ (∀ perPage : Int,
      (createEmptyPaginatedMessages perPage).hasMore =
        decide ((createEmptyPaginatedMessages perPage).currentPage <
          (createEmptyPaginatedMessages perPage).lastPage)
      ∧ (createEmptyPaginatedMessages perPage).currentPage = 1
      ∧ (createEmptyPaginatedMessages perPage).lastPage = 1
      ∧ (createEmptyPaginatedMessages perPage).hasMore = false) := by
  constructor
  · intro json
    rfl
  · intro perPage
    refine ⟨?_, rfl, rfl, rfl⟩
    show false = decide ((1 : Int) < 1)
    decide

/-- C10: parseMessageType is total over string-or-undefined inputs with
values in the four sender categories; it depends only on the lowercased
input, maps every unrecognized or undefined input to the default user
category, and parseChatMessage derives the sender category through it. -/
theorem parseMessageType_total_default :
    parseMessageType none = .user
    ∧ (∀ s t : String, jsToLowerCase s = jsToLowerCase t →
        parseMessageType (some s) = parseMessageType (some t))
    ∧ (∀ s : String, jsToLowerCase s ≠ "user" → jsToLowerCase s ≠ "admin" →
        jsToLowerCase s ≠ "ai" → jsToLowerCase s ≠ "system" →
        parseMessageType (some s) = .user)
    ∧ (∀ v : Option String,
        parseMessageType v = .user ∨ parseMessageType v = .admin ∨
        parseMessageType v = .ai ∨ parseMessageType v = .system)
    ∧ (∀ json : Jv,
        (parseChatMessage json).type = parseMessageType (jvFieldStr? json "type")) := by
  refine ⟨rfl, ?_, ?_, ?_, fun json => rfl⟩
  · intro s t h
    simp only [parseMessageType]
    rw [h]
  · intro s h1 h2 h3 h4
    simp only [parseMessageType, messageTypeOfLower]
    rw [if_neg h1, if_neg h2, if_neg h3, if_neg h4]
  · intro v
    cases hv : parseMessageType v <;> simp

/-- C10 witness: the recognized spellings are matched case-insensitively and
an unrecognized spelling takes the default category. -/
theorem parseMessageType_total_default_witness :
    parseMessageType (some "ADMIN") = parseMessageType (some "admin")
    ∧ parseMessageType (some "bogus") = .user :=
  ⟨parseMessageType_total_default.2.1 "ADMIN" "admin" (by decide),
   parseMessageType_total_default.2.2.1 "bogus" (by decide) (by decide)
     (by decide) (by decide)⟩

/-- C8: an upload given an already-cancelled token fails with the
upload-cancelled error without issuing any network request, for both the
image and the file entry points; and cancelling a token is idempotent, the
second cancel finding the cancelled flag already set and adding no further
cancellation effect on the underlying source. -/
theorem upload_cancellation :
    (∀ (t : CancelToken) (net : NetResult), t.isCancelled = true →
      uploadImage (some t) net = (0, .error (.uploadCancelled "Upload was cancelled"))
      ∧ uploadFile (some t) net = (0, .error (.uploadCancelled "Upload was cancelled")))
    ∧ (∀ t : CancelToken,
      CancelToken.cancel (CancelToken.cancel t) = CancelToken.cancel t
      ∧ (CancelToken.cancel t).isCancelled = true
      ∧ (CancelToken.cancel (CancelToken.cancel t)).sourceCancelCount =
          (CancelToken.cancel t).sourceCancelCount) := by
  constructor
  · intro t net h
    constructor <;> simp [uploadImage, uploadFile, h]
  · intro t
    by_cases h : t.isCancelled <;>
      simp [CancelToken.cancel, h]

/-- C8 witness: a concrete cancelled token makes the upload fail before any
request, and a concrete fresh token is cancelled idempotently. -/
theorem upload_cancellation_witness :
    uploadImage (some { isCancelled := true, sourceCancelCount := 1 }) (.ok .null) =
      (0, .error (.uploadCancelled "Upload was cancelled"))
    ∧ CancelToken.cancel (CancelToken.cancel CancelToken.new) =
        CancelToken.cancel CancelToken.new :=
  ⟨(upload_cancellation.1 { isCancelled := true, sourceCancelCount := 1 }
      (.ok .null) rfl).1,
   (upload_cancellation.2 CancelToken.new).1⟩

/-- Extraction precedence as the claim words it, for comparison with
parseError: a present top-level error field wins outright; otherwise a
present errors field is flattened and joined; otherwise a present message
field; otherwise the generic fallback naming the status. -/
def claimedParseError (data : Option Jv) (status : Nat) : String :=
  match data with
  | some d =>
    match getField d "error" with
    | some e => jsToString e
    | none =>
      match getField d "errors" with
      | some errs => errorsJoined errs
      | none =>
        match getField d "message" with
        | some m => jsToString m
        | none => "Request failed with status " ++ toString status
  | none => "Request failed with status " ++ toString status

/-- Amended extraction precedence: only truthy fields participate. A truthy
error field wins; otherwise an errors field that is truthy and of object
type is flattened and joined; otherwise a truthy message field; otherwise
(also when the body itself is absent or falsy) the generic fallback. -/
def amendedParseError (data : Option Jv) (status : Option Nat) : String :=
  let fallback := "Request failed with status " ++ statusText status
  match data with
  | none => fallback
  | some d =>
    if !truthy d then fallback
    else if (getTruthyField d "error").isSome then
      jsToString ((getTruthyField d "error").getD .null)
    else if ((getField d "errors").filter fun v => truthy v && isObjectType v).isSome then
      errorsJoined (((getField d "errors").filter fun v => truthy v && isObjectType v).getD .null)
    else if (getTruthyField d "message").isSome then
      jsToString ((getTruthyField d "message").getD .null)
    else fallback

/-- C9 counterexample: a failed response body with a present but empty-string
error field next to a message field. The claimed precedence extracts the
error field, but parseError skips the falsy error field and extracts the
message field instead. -/
theorem parseError_precedence_counterexample :
    parseError (some (Jv.obj [("error", Jv.str ""), ("message", Jv.str "boom")]))
      (some 422) = "boom"
    ∧ getField (Jv.obj [("error", Jv.str ""), ("message", Jv.str "boom")]) "error" =
        some (Jv.str "")
    ∧ claimedParseError
        (some (Jv.obj [("error", Jv.str ""), ("message", Jv.str "boom")])) 422 = "" := by
  refine ⟨?_, rfl, ?_⟩ <;>
    simp [parseError, claimedParseError, getTruthyField, getField, truthy,
      jsToString, errorsJoined, jsValues, flatOne, jsJoinElem, statusText,
      List.find?]

/-- C9 amended: parseError follows the truthiness-aware precedence: a truthy
error field wins; else a truthy errors field of object type is flattened and
comma-joined; else a truthy message field; else the generic fallback naming
the status. -/
theorem parseError_truthy_precedence :
    ∀ (data : Option Jv) (status : Option Nat),
      parseError data status = amendedParseError data status := by
  intro data status
  cases data with
  | none => rfl
  | some d =>
    simp only [parseError, amendedParseError]
    by_cases hd : truthy d
    · simp only [hd, Bool.not_true, if_true, if_false]
      cases he : getTruthyField d "error" with
      | some e => simp [he]
      | none =>
        simp only [he, Option.isSome_none]
        cases herrs : (getField d "errors").filter (fun v => truthy v && isObjectType v) with
        | some errs => simp [herrs]
        | none =>
          simp only [herrs, Option.isSome_none]
          cases hm : getTruthyField d "message" with
          | some m => simp [hm]
          | none => simp [hm]
    · simp [hd]

/-- C7 counterexample: a dispatch over two connection callbacks where the
first throws invokes only one of the two callbacks; the second callback of
the same dispatch never runs. -/
theorem notify_throw_stops_dispatch_counterexample :
    (notifyConnectionChange
      [fun _ => Except.error 0, fun _ => Except.ok ()] true).fst ≠
    ([fun _ => Except.error 0, fun _ => Except.ok ()] :
      List (Bool → Except Nat Unit)).length := by
  decide

/-- C7 amended: each notify dispatch invokes callbacks in order and stops at
the first throwing callback, whose exception escapes the dispatch; the
callbacks after it are not invoked in that dispatch. When no callback
throws, all of them run. All four subscriber categories dispatch through the
same forEach semantics. -/
theorem notify_dispatch_stops_at_first_throw (α ε : Type) :
    (∀ (callbacks : List (α → Except ε Unit)) (x : α),
      (∀ c ∈ callbacks, c x = .ok ()) →
      forEachCallbacks callbacks x = (callbacks.length, none))
    ∧ (∀ (pre post : List (α → Except ε Unit)) (c : α → Except ε Unit) (x : α) (e : ε),
      (∀ c' ∈ pre, c' x = .ok ()) → c x = .error e →
      forEachCallbacks (pre ++ c :: post) x = (pre.length + 1, some e))
    ∧ (∀ (callbacks : List (Bool → Except ε Unit)) (b : Bool),
      notifyConnectionChange callbacks b = forEachCallbacks callbacks b
      ∧ notifyTyping callbacks b = forEachCallbacks callbacks b)
    ∧ (∀ (callbacks : List (ChatMessage → Except ε Unit)) (m : ChatMessage),
      notifyMessage callbacks m = forEachCallbacks callbacks m)
    ∧ (∀ (callbacks : List (String → Except ε Unit)) (k : String),
      notifyBrowserKeyUpdate callbacks k = forEachCallbacks callbacks k) := by
  refine ⟨?_, ?_, fun cbs b => ⟨rfl, rfl⟩, fun cbs m => rfl, fun cbs k => rfl⟩
  · intro callbacks x h
    induction callbacks with
    | nil => rfl
    | cons c rest ih =>
      have hc : c x = .ok () := h c (List.mem_cons_self c rest)
      have hrest : ∀ c' ∈ rest, c' x = .ok () :=
        fun c' hmem => h c' (List.mem_cons_of_mem c hmem)
      simp [forEachCallbacks, hc, ih hrest]
  · intro pre post c x e hpre hc
    induction pre with
    | nil => simp [forEachCallbacks, hc]
    | cons p rest ih =>
      have hp : p x = .ok () := hpre p (List.mem_cons_self p rest)
      have hrest : ∀ c' ∈ rest, c' x = .ok () :=
        fun c' hmem => hpre c' (List.mem_cons_of_mem p hmem)
      simp [forEachCallbacks, hp, ih hrest]

/-- C7 amended witness: with a concrete dispatch of one succeeding callback,
one throwing callback and one further callback, exactly two callbacks are
invoked and the exception escapes. -/
theorem notify_dispatch_stops_at_first_throw_witness :
    forEachCallbacks
      ([fun _ => Except.ok (), fun _ => Except.error 7, fun _ => Except.ok ()] :
        List (Bool → Except Nat Unit)) true = (2, some 7) := by
  have h := (notify_dispatch_stops_at_first_throw Bool Nat).2.1
    [fun _ => Except.ok ()] [fun _ => Except.ok ()]
    (fun _ => Except.error 7) true 7
    (by intro c' hmem; simp at hmem; subst hmem; rfl) rfl
  simpa using h

/-- Concrete remote config used by the witnesses, with the active flag set. -/
def sampleActiveConfig : ChatAppRemoteConfig :=
  { appName := "Chat"
    appDescription := none
    logoUrl := none
    isActive := true
    settings := []
    requiredFields := [("name", "Name")]
    socketUrl := "wss://chat.example"
    socketApiKey := "socket-key" }

/-- Concrete remote config used by the witnesses, with the active flag
cleared. -/
def sampleInactiveConfig : ChatAppRemoteConfig :=
  { sampleActiveConfig with isActive := false }

/-- Concrete storage with a persisted identity, used by the witnesses. -/
def sampleStorage : StorageState :=
  { browserKey := some "abc123", userData := none }

/-- Concrete socket service state before any connection. -/
def sampleSocket : SocketState :=
  { socketPresent := false, connected := false, currentBrowserKey := none }

/-- Concrete fresh session (provider just mounted) over the sample storage. -/
def sampleFreshSystem : System :=
  { state := initialChatState, storage := sampleStorage, socket := sampleSocket }

/-- Concrete initialized session used by the witnesses. -/
def sampleInitializedSystem : System :=
  { state :=
      { isInitialized := true
        isConnected := false
        isRegistered := true
        remoteConfig := some sampleActiveConfig
        browserKey := some "abc123"
        chatId := none
        error := none }
    storage := sampleStorage
    socket := { socketPresent := true, connected := false, currentBrowserKey := some "abc123" } }

/-- C2: on an initialized session, loadMessages always returns a page
(never raises); and whenever no truthy identity is held in memory or in the
store, or no user-data blob is persisted, or the fetch fails, the result is
the empty-page sentinel with the requested page size. -/
theorem loadMessages_never_raises (sys : System) (page perPage : Int)
    (apiResult : Except ChatError PaginatedMessages)
    (hinit : sys.state.isInitialized = true) :
    (∃ r, loadMessages sys page perPage apiResult = .ok r)
    ∧ (strOptTruthy sys.state.browserKey = false →
        strOptTruthy sys.storage.browserKey = false →
        loadMessages sys page perPage apiResult =
          .ok { messages := [], total := 0, currentPage := 1, perPage := perPage,
                lastPage := 1, hasMore := false })
    ∧ (sys.storage.userData = none →
        loadMessages sys page perPage apiResult =
          .ok { messages := [], total := 0, currentPage := 1, perPage := perPage,
                lastPage := 1, hasMore := false })
    ∧ (∀ e, apiResult = .error e →
        loadMessages sys page perPage apiResult =
          .ok { messages := [], total := 0, currentPage := 1, perPage := perPage,
                lastPage := 1, hasMore := false }) := by
  unfold loadMessages
  rw [hinit]
  by_cases h1 : strOptTruthy sys.state.browserKey <;>
    by_cases h2 : strOptTruthy sys.storage.browserKey <;>
    cases hud : sys.storage.userData <;>
    cases hapi : apiResult <;>
    simp [h1, h2, hud, createEmptyPaginatedMessages]

/-- C2 witness: on a concrete initialized session whose fetch fails, the
call returns the sentinel rather than raising. -/
theorem loadMessages_never_raises_witness :
    loadMessages sampleInitializedSystem 1 20
      (.error (.apiException "boom" 500)) =
      .ok { messages := [], total := 0, currentPage := 1, perPage := 20,
            lastPage := 1, hasMore := false } :=
  (loadMessages_never_raises sampleInitializedSystem 1 20
      (.error (.apiException "boom" 500)) rfl).2.2.2
    (.apiException "boom" 500) rfl

/-- C3: initializing a not-yet-initialized session against a fetched config
whose active flag is false throws the inactive-app error; the resulting
state differs from the previous one only in the recorded error, so the
initialized flag remains false and no field advances to the configuration. -/
theorem init_inactive_config (sys : System) (socketUrlOverride : Option String)
    (cfg : ChatAppRemoteConfig) (hni : sys.state.isInitialized = false)
    (hinactive : cfg.isActive = false) :
    initChat sys socketUrlOverride (.ok cfg) =
      ({ sys with state := { sys.state with
          error := some (.chatException "Chat app is not active") } },
       some (.chatException "Chat app is not active"))
    ∧ (initChat sys socketUrlOverride (.ok cfg)).fst.state.isInitialized = false := by
  have h : initChat sys socketUrlOverride (.ok cfg) =
      ({ sys with state := { sys.state with
          error := some (.chatException "Chat app is not active") } },
       some (.chatException "Chat app is not active")) := by
    simp [initChat, hni, hinactive]
  exact ⟨h, by rw [h]; exact hni⟩

/-- C3 witness: a concrete fresh session initialized against the concrete
inactive config throws and remains uninitialized. -/
theorem init_inactive_config_witness :
    (initChat sampleFreshSystem none (.ok sampleInactiveConfig)).snd =
      some (.chatException "Chat app is not active")
    ∧ (initChat sampleFreshSystem none (.ok sampleInactiveConfig)).fst.state.isInitialized
        = false := by
  have h := init_inactive_config sampleFreshSystem none sampleInactiveConfig rfl rfl
  exact ⟨by rw [h.1], h.2⟩

/-- C6: reset is idempotent: resetting twice in a row yields exactly the end
state of one reset; a reset leaves the initialized flag untouched (after one
or two resets) and produces the cleared registration state with the
persisted store emptied. -/
theorem reset_idempotent_spec (sys : System) :
    reset (reset sys) = reset sys
    ∧ (reset sys).state.isInitialized = sys.state.isInitialized
    ∧ (reset (reset sys)).state.isInitialized = sys.state.isInitialized
    ∧ (reset sys).state.isRegistered = false
    ∧ (reset sys).state.browserKey = none
    ∧ (reset sys).state.chatId = none
    ∧ (reset sys).storage.browserKey = none
    ∧ (reset sys).storage.userData = none := by
  by_cases h : sys.socket.socketPresent <;>
    simp [reset, socketDisconnect, storageClearAll, h]

/-- The session invariant of the claim: a registered state holds a non-null
device identity. -/
def RegisteredImpliesKey (sys : System) : Prop :=
  sys.state.isRegistered = true → sys.state.browserKey.isSome = true

/-- A storage that reports registered holds a present browser key. -/
theorem storageIsRegistered_isSome (s : StorageState) :
    storageIsRegistered s = true → s.browserKey.isSome = true := by
  unfold storageIsRegistered
  cases s.browserKey <;> simp

/-- Every core operation preserves the registered-implies-identity
invariant. -/
theorem stepOp_preserves_inv (sys : System) (op : Op) :
    RegisteredImpliesKey sys → RegisteredImpliesKey (stepOp sys op) := by
  intro hinv
  cases op with
  | initOp o c =>
    unfold stepOp initChat
    by_cases h : sys.state.isInitialized
    · simpa [h] using hinv
    · cases c with
      | error e =>
        simp only [h, if_false, Bool.false_eq_true]
        intro hr
        exact hinv hr
      | ok cfg =>
        by_cases ha : cfg.isActive
        · simp only [h, ha, RegisteredImpliesKey, Bool.not_true, if_false,
            Bool.false_eq_true]
          intro hr
          exact storageIsRegistered_isSome _ hr
        · simp only [h, ha, RegisteredImpliesKey, Bool.not_false, if_true,
            Bool.false_eq_true]
          intro hr
          exact hinv hr
  | registerOp u n a =>
    unfold stepOp register
    by_cases h : sys.state.isInitialized
    · cases hm : findMissingField
        (match sys.state.remoteConfig with
         | some cfg => cfg.requiredFields
         | none => []) u with
      | some kl => simpa [h, hm] using hinv
      | none =>
        cases a with
        | error e => simpa [h, hm] using hinv
        | ok resp => simp [h, hm, RegisteredImpliesKey]
    · simpa [h] using hinv
  | resetOp =>
    unfold stepOp reset
    by_cases h : sys.socket.socketPresent <;>
      simp [socketDisconnect, h, RegisteredImpliesKey]
  | browserKeyUpdateOp k =>
    simp [stepOp, browserKeyUpdate, RegisteredImpliesKey]

/-- Running any operation sequence preserves the invariant. -/
theorem run_preserves_inv (sys : System) (ops : List Op) :
    RegisteredImpliesKey sys → RegisteredImpliesKey (run sys ops) := by
  induction ops generalizing sys with
  | nil => exact fun h => h
  | cons op rest ih =>
    intro h
    exact ih (stepOp sys op) (stepOp_preserves_inv sys op h)

/-- C4: in every session state reachable from a freshly mounted provider
(over arbitrary persisted storage and socket state) by any sequence of
initialize, register, reset and identity-update operations, a registered
state holds a non-null browser key. -/
theorem registered_implies_identity (ops : List Op)
    (storage0 : StorageState) (socket0 : SocketState) :
    (run { state := initialChatState, storage := storage0, socket := socket0 }
        ops).state.isRegistered = true →
    ((run { state := initialChatState, storage := storage0, socket := socket0 }
        ops).state.browserKey).isSome = true :=
  run_preserves_inv _ ops (by intro h; simp [initialChatState] at h)

/-- C4 witness: a concrete run that restores a persisted identity and ends
registered indeed holds an identity. -/
theorem registered_implies_identity_witness :
    ((run { state := initialChatState, storage := sampleStorage, socket := sampleSocket }
        [Op.initOp none (.ok sampleActiveConfig)]).state.browserKey).isSome = true :=
  registered_implies_identity [Op.initOp none (.ok sampleActiveConfig)]
    sampleStorage sampleSocket (by decide)

/-- A successful find? splits the list at the first element satisfying the
predicate. -/
theorem find?_eq_some_split {α : Type} (p : α → Bool) (l : List α) (a : α) :
    l.find? p = some a →
    ∃ l1 l2, l = l1 ++ a :: l2 ∧ p a = true ∧ ∀ b ∈ l1, p b = false := by
  induction l with
  | nil => simp [List.find?]
  | cons x xs ih =>
    intro h
    by_cases hx : p x
    · have hxa : x = a := by simpa [List.find?, hx] using h
      subst hxa
      exact ⟨[], xs, rfl, hx, by simp⟩
    · have h2 : xs.find? p = some a := by
        simpa [List.find?, hx] using h
      obtain ⟨l1, l2, heq, hpa, hall⟩ := ih h2
      refine ⟨x :: l1, l2, by rw [heq]; rfl, hpa, ?_⟩
      intro b hb
      rcases List.mem_cons.mp hb with hbx | hbl
      · subst hbx
        exact Bool.eq_false_iff.mpr hx
      · exact hall b hbl

/-- A failed find? means no element satisfies the predicate. -/
theorem find?_eq_none_all {α : Type} (p : α → Bool) (l : List α) :
    l.find? p = none → ∀ a ∈ l, p a = false := by
  induction l with
  | nil => simp
  | cons x xs ih =>
    intro h a ha
    by_cases hx : p x
    · simp [List.find?, hx] at h
    · have h2 : xs.find? p = none := by simpa [List.find?, hx] using h
      rcases List.mem_cons.mp ha with hax | hal
      · subst hax
        exact Bool.eq_false_iff.mpr hx
      · exact ih h2 a hal

/-- C1: on an initialized session whose remote config holds the
required-fields map, register fails with the missing-required-field error
exactly when some required key is missing from the submission; the reported
field is the first missing one in declaration order of the map; when no
field is missing, validation passes and the call proceeds; and a field
counts as missing exactly when its key is absent, its value is null, or its
string conversion is blank after trimming. -/
theorem register_missing_required_iff
    (sys : System) (userData : List (String × Jv)) (now : String)
    (apiResult : Except ChatError RegistrationResponse) (cfg : ChatAppRemoteConfig)
    (hinit : sys.state.isInitialized = true)
    (hcfg : sys.state.remoteConfig = some cfg) :
    ((∃ key label, (register sys userData now apiResult).snd =
        .missingRequiredField key label)
      ↔ ∃ kl ∈ cfg.requiredFields, fieldMissing userData kl.fst = true)
    ∧ (∀ key label, (register sys userData now apiResult).snd =
        .missingRequiredField key label →
        findMissingField cfg.requiredFields userData = some (key, label)
        ∧ ∃ l1 l2, cfg.requiredFields = l1 ++ (key, label) :: l2
            ∧ fieldMissing userData key = true
            ∧ ∀ kl ∈ l1, fieldMissing userData kl.fst = false)
    ∧ (findMissingField cfg.requiredFields userData = none →
        ∀ key label, (register sys userData now apiResult).snd ≠
          .missingRequiredField key label)
    ∧ (∀ key, fieldMissing userData key = true ↔
        (lookupField userData key = none ∨ lookupField userData key = some .null ∨
         ∃ v, lookupField userData key = some v ∧ (jsToString v).trim = "")) := by
  have hreg : (register sys userData now apiResult).snd =
      match findMissingField cfg.requiredFields userData with
      | some kl => .missingRequiredField kl.fst kl.snd
      | none =>
        match apiResult with
        | .error e => .apiError e
        | .ok resp => .registered resp := by
    unfold register
    rw [hcfg, hinit]
    cases hm : findMissingField cfg.requiredFields userData with
    | some kl => simp [hm]
    | none => cases apiResult <;> simp [hm]
  refine ⟨⟨?_, ?_⟩, ?_, ?_, ?_⟩
  · rintro ⟨key, label, h⟩
    rw [hreg] at h
    cases hm : findMissingField cfg.requiredFields userData with
    | some kl =>
      rw [hm] at h
      have hkl : kl = (key, label) := by
        cases kl
        simpa using h
      subst hkl
      obtain ⟨l1, l2, heq, hp, _⟩ := find?_eq_some_split _ _ _ hm
      exact ⟨(key, label), by rw [heq]; simp, hp⟩
    | none =>
      rw [hm] at h
      cases apiResult <;> simp at h
  · rintro ⟨kl, hmem, hmiss⟩
    cases hm : findMissingField cfg.requiredFields userData with
    | some kl2 =>
      exact ⟨kl2.fst, kl2.snd, by rw [hreg, hm]⟩
    | none =>
      have := find?_eq_none_all _ _ hm kl hmem
      rw [hmiss] at this
      exact absurd this (by simp)
  · intro key label h
    rw [hreg] at h
    cases hm : findMissingField cfg.requiredFields userData with
    | some kl =>
      rw [hm] at h
      have hkl : kl = (key, label) := by
        cases kl
        simpa using h
      subst hkl
      obtain ⟨l1, l2, heq, hp, hall⟩ := find?_eq_some_split _ _ _ hm
      exact ⟨rfl, l1, l2, heq, hp, hall⟩
    | none =>
      rw [hm] at h
      cases apiResult <;> simp at h
  · intro hm key label
    rw [hreg, hm]
    cases apiResult <;> simp
  · intro key
    cases hl : lookupField userData key with
    | none => simp [fieldMissing, hl]
    | some v => cases v <;> simp [fieldMissing, hl]

/-- C1 witness: on the concrete initialized session requiring a name, an
empty submission fails with a missing-required-field error. -/
theorem register_missing_required_iff_witness :
    ∃ key label, (register sampleInitializedSystem [] "2026-01-01"
      (.ok { success := true, browserKey := "bk", chatId := none,
             message := none, lastMessages := none })).snd =
      RegisterOutcome.missingRequiredField key label :=
  (register_missing_required_iff sampleInitializedSystem [] "2026-01-01"
      (.ok { success := true, browserKey := "bk", chatId := none,
             message := none, lastMessages := none })
      sampleActiveConfig rfl rfl).1.mpr
    ⟨("name", "Name"), by simp [sampleActiveConfig], rfl⟩

end FcrmChat
